import Mathlib

/-!
Verification of the Humsana MCP interlock engine (src/index.ts, "Day 3.5"
version).  The TypeScript decision functions are shallowly embedded as
executable Lean definitions:

* ambient reads (the YAML config file, the SQLite-derived fatigue state,
  the current content of the target file, the wall clock timestamp, the result
  of `execSync`) become explicit parameters;
* side effects (`execSync`, `writeFileSync` on the target file,
  `mkdirSync` on its parent, the pending-review snapshot, the
  `console.error` audit line) become an explicit `Effect` list returned
  next to the function result;
* JavaScript numbers are embedded as `Int`/`Rat` with `Math.round`
  modelled as floor (x + 1/2); JS number-to-string rendering inside
  human-readable messages is abstracted by `toString`/`ratRepr`;
* JS string primitives (`split`, `trim`, `toLowerCase`, `includes`,
  `slice`, `parseInt`, truthiness) are re-implemented over `List Char`
  so that every definition evaluates by kernel reduction.
-/

/-! ## JavaScript string primitives -/

/-- Whitespace recognised by the embedded `trim` (space, tab, newline,
carriage return, vertical tab, form feed). -/
def wsChar (c : Char) : Bool :=
  c = ' ' || c = '\t' || c = '\n' || c = '\r' || c = Char.ofNat 11 || c = Char.ofNat 12

/-- JS `String.prototype.trim`. -/
def jsTrim (s : String) : String :=
  String.mk (((s.data.dropWhile wsChar).reverse.dropWhile wsChar).reverse)

/-- ASCII lower-casing of one character (JS `toLowerCase`, restricted to
ASCII, which covers every pattern the engine matches). -/
def lowerChar (c : Char) : Char :=
  if 65 ≤ c.toNat ∧ c.toNat ≤ 90 then Char.ofNat (c.toNat + 32) else c

/-- JS `String.prototype.toLowerCase` (ASCII fragment). -/
def jsToLower (s : String) : String :=
  String.mk (s.data.map lowerChar)

/-- Boolean list-prefix test. -/
def isPrefXB : List Char → List Char → Bool
  | [], _ => true
  | _ :: _, [] => false
  | p :: ps, s :: ss => p == s && isPrefXB ps ss

/-- Boolean substring test: does `p` occur contiguously inside the second
list?  (JS `String.prototype.includes`.) -/
def containsSub (p : List Char) : List Char → Bool
  | [] => isPrefXB p []
  | c :: rest => isPrefXB p (c :: rest) || containsSub p rest

/-- JS `s.includes(pat)`. -/
def strIncludes (s pat : String) : Bool :=
  containsSub pat.data s.data

/-- JS `s.startsWith(pat)`. -/
def strStartsWith (s pat : String) : Bool :=
  isPrefXB pat.data s.data

/-- JS `s.slice(0, n)`. -/
def strTake (s : String) (n : Nat) : String :=
  String.mk (s.data.take n)

/-- JS `String.prototype.split` with a one-character separator.  Returns
at least one (possibly empty) piece, exactly like JS (`"".split` gives
`[""]`, a trailing separator yields a trailing `""`). -/
def splitOnChar (sep : Char) : List Char → List (List Char)
  | [] => [[]]
  | c :: rest =>
    match splitOnChar sep rest with
    | [] => [[]]
    | h :: t => if c = sep then [] :: h :: t else (c :: h) :: t

/-- JS `s.split(sep)` for a one-character separator. -/
def jsSplit (s : String) (sep : Char) : List String :=
  (splitOnChar sep s.data).map String.mk

/-- JS `content.split("\n")`. -/
def splitLines (s : String) : List String :=
  jsSplit s '\n'

/-- JS `Array.prototype.join(":")`. -/
def joinColon : List String → String
  | [] => ""
  | [s] => s
  | s :: rest => s ++ ":" ++ joinColon rest

/-- Truthiness of an optional JS string argument: `undefined` and `""`
are falsy, every other string is truthy. -/
def overridePresent : Option String → Bool
  | none => false
  | some s => !(s.data.isEmpty)

/-! ## JavaScript number primitives -/

/-- JS `Math.round` on a rational: round half toward positive infinity. -/
def jsRound (q : ℚ) : Int :=
  ⌊q + 1 / 2⌋

/-- Decimal digit value. -/
def digitVal (c : Char) : Option Nat :=
  if 48 ≤ c.toNat ∧ c.toNat ≤ 57 then some (c.toNat - 48) else none

/-- Hexadecimal digit value. -/
def hexVal (c : Char) : Option Nat :=
  if 48 ≤ c.toNat ∧ c.toNat ≤ 57 then some (c.toNat - 48)
  else if 97 ≤ c.toNat ∧ c.toNat ≤ 102 then some (c.toNat - 87)
  else if 65 ≤ c.toNat ∧ c.toNat ≤ 70 then some (c.toNat - 55)
  else none

/-- Parse a maximal non-empty run of digits from the front; `none` when
the first character is not a digit (JS `parseInt` returning `NaN`). -/
def parseNatDigits (valOf : Char → Option Nat) (base : Nat) (cs : List Char) : Option Nat :=
  let ds := cs.takeWhile (fun c => (valOf c).isSome)
  if ds.isEmpty then none
  else some (ds.foldl (fun acc c => acc * base + ((valOf c).getD 0)) 0)

/-- Unsigned part of JS `parseInt` (radix 10, with the `0x`/`0X`
hexadecimal prefix). -/
def jsParseIntUnsigned (cs : List Char) : Option Nat :=
  match cs with
  | '0' :: x :: rest =>
    if x = 'x' ∨ x = 'X' then parseNatDigits hexVal 16 rest
    else parseNatDigits digitVal 10 ('0' :: x :: rest)
  | _ => parseNatDigits digitVal 10 cs

/-- JS `parseInt(s)`; `none` models `NaN`. -/
def jsParseInt (s : String) : Option Int :=
  match s.data.dropWhile wsChar with
  | '-' :: rest => (jsParseIntUnsigned rest).map (fun n => -(n : Int))
  | '+' :: rest => (jsParseIntUnsigned rest).map (fun n => (n : Int))
  | cs => (jsParseIntUnsigned cs).map (fun n => (n : Int))

/-- JS `parseInt(value) || d`: `NaN` and `0` both fall back to the
default `d` (`||` treats them as falsy). -/
def parseIntOr (v : String) (d : Int) : Int :=
  match jsParseInt v with
  | none => d
  | some n => if n = 0 then d else n

/-- Abstraction of JS number-to-string rendering for rationals appearing
inside human-readable messages (never the subject of a claim). -/
def ratRepr (q : ℚ) : String :=
  toString q.num ++ "/" ++ toString q.den

/-! ## Configuration (`loadConfig`) -/

/-- Built-in `DANGEROUS_PATTERNS` defaults from the source. -/
def DEFAULT_DANGEROUS_PATTERNS : List String :=
  ["rm -rf", "drop database", "drop table", "delete from", "git push --force",
   "git push -f", "kubectl delete", "terraform destroy", "docker system prune",
   "sudo rm", "dd if=", "mkfs"]

/-- The `Config` record of the source.  `execution_mode` is a raw string
because the loader stores whatever the file says without validation. -/
structure Config where
  execution_mode : String
  fatigue_threshold : Int
  dangerous_commands : List String
  deny_patterns : List String
  allow_patterns : List String
  webhook_url : Option String
  write_warn_threshold : Int
  write_block_threshold : Int
deriving DecidableEq

/-- The `defaults` record of `loadConfig`. -/
def defaultConfig : Config :=
  { execution_mode := "dry_run"
    fatigue_threshold := 70
    dangerous_commands := DEFAULT_DANGEROUS_PATTERNS
    deny_patterns := []
    allow_patterns := []
    webhook_url := none
    write_warn_threshold := 30
    write_block_threshold := 50 }

/-- One iteration of the `for (const line of lines)` loop of
`loadConfig`: skip comments and colon-free lines, split on `:` into key
and value, then apply the five key-specific updates. -/
def applyConfigLine (config : Config) (line : String) : Config :=
  let trimmed := jsTrim line
  if strStartsWith trimmed "#" || !(strIncludes trimmed ":") then config
  else
    match jsSplit trimmed ':' with
    | [] => config
    | key :: valueParts =>
      let value := jsTrim (joinColon valueParts)
      let c1 := if key = "execution_mode" then { config with execution_mode := value } else config
      let c2 := if key = "fatigue_threshold" then { c1 with fatigue_threshold := parseIntOr value 70 } else c1
      let c3 := if key = "webhook_url" ∧ value ≠ "" then { c2 with webhook_url := some value } else c2
      let c4 := if key = "write_warn_threshold" then { c3 with write_warn_threshold := parseIntOr value 30 } else c3
      if key = "write_block_threshold" then { c4 with write_block_threshold := parseIntOr value 50 } else c4

/-- Loader `loadConfig`; `none` models a missing (or unreadable) config file. -/
def loadConfig (fileContent : Option String) : Config :=
  match fileContent with
  | none => defaultConfig
  | some content => (splitLines content).foldl applyConfigLine defaultConfig

/-! ## Fatigue (`calculateFatigue`) -/

/-- The `fatigue` slice of the user state consumed by the interlock. -/
structure Fatigue where
  level : Int
  category : String
  uptime_hours : ℚ
deriving DecidableEq

/-- Fatigue formula `calculateFatigue(stressLevel, uptimeHours)`:
`Math.min(100, Math.max(0, Math.round(min(60, uptime/12*60) + stress*40)))`. -/
def calculateFatigue (stressLevel uptimeHours : ℚ) : Int :=
  let baseFatigue : ℚ := min 60 (uptimeHours / 12 * 60)
  let stressFatigue : ℚ := stressLevel * 40
  min 100 (max 0 (jsRound (baseFatigue + stressFatigue)))

/-! ## Risk classifier (`isDangerousCommand`) -/

/-- Classifier `isDangerousCommand(command, config)`: case-insensitive substring
match of any pattern from `dangerous_commands ++ deny_patterns`. -/
def isDangerousCommand (command : String) (config : Config) : Bool :=
  let lower := jsToLower command
  (config.dangerous_commands ++ config.deny_patterns).any
    (fun pat => strIncludes lower (jsToLower pat))

/-! ## Impact analyzer (`calculateDestructiveImpact`) -/

/-- The set of trimmed, non-blank lines of a content string (the JS
`Set` built by the impact analyzer). -/
def lineSet (content : String) : Finset String :=
  (((splitLines content).map jsTrim).filter (fun l => l ≠ "")).toFinset

/-- Result record of `calculateDestructiveImpact`. -/
structure Impact where
  linesRemoved : Nat
  linesAdded : Nat
  totalOldLines : Nat
  totalNewLines : Nat
  percentageRemoved : Int
deriving DecidableEq

/-- Analyzer `calculateDestructiveImpact(oldContent, newContent)`: set-based line
diff plus `Math.round((linesRemoved / oldLines.length) * 100)` guarded by
`oldLines.length > 0`. -/
def calculateDestructiveImpact (oldContent newContent : String) : Impact :=
  let oldLines := splitLines oldContent
  let newLines := splitLines newContent
  let oldSet := lineSet oldContent
  let newSet := lineSet newContent
  let linesRemoved := (oldSet \ newSet).card
  let linesAdded := (newSet \ oldSet).card
  let percentageRemoved : Int :=
    if 0 < oldLines.length then jsRound ((linesRemoved : ℚ) / (oldLines.length : ℚ) * 100)
    else 0
  { linesRemoved := linesRemoved
    linesAdded := linesAdded
    totalOldLines := oldLines.length
    totalNewLines := newLines.length
    percentageRemoved := percentageRemoved }

/-! ## Effects -/

/-- The side effects the interlock entry points can perform.  Reads are
parameters, so only writes appear here.  `saveReviewFile` folds the
`mkdirSync(REVIEW_DIR)` + `writeFileSync(reviewPath)` pair of
`saveToPendingReview`; `ensureParentDir` is the
`mkdirSync(dirname(filepath), recursive)` preceding a live target write;
`auditLog` is the `console.error("[AUDIT] ...")` line. -/
inductive Effect where
  | auditLog (entry : String)
  | execCommand (command : String)
  | writeTargetFile (path : String) (content : String)
  | ensureParentDir (path : String)
  | saveReviewFile (path : String) (content : String)
deriving DecidableEq

/-- Effects that touch the world beyond the audit/review sink: command
execution and (directory creation for) the target-file write. -/
def Effect.isActionEffect : Effect → Bool
  | .execCommand _ => true
  | .writeTargetFile _ _ => true
  | .ensureParentDir _ => true
  | _ => false

/-- Constant `REVIEW_DIR` (the home directory is abstracted). -/
def REVIEW_DIR : String := "~/.humsana/pending_reviews"

/-- Sanitizer `timestamp.replace(/[:.]/g, "-")`. -/
def sanitizeTimestamp (ts : String) : String :=
  String.mk (ts.data.map (fun c => if c = ':' ∨ c = '.' then '-' else c))

/-- Sanitizer `filepath.replace(/[/\\]/g, "_")`. -/
def sanitizeFilename (p : String) : String :=
  String.mk (p.data.map (fun c => if c = '/' ∨ c = '\\' then '_' else c))

/-- The snapshot path built by `saveToPendingReview`. -/
def pendingReviewPath (timestamp filepath : String) : String :=
  REVIEW_DIR ++ "/" ++ sanitizeTimestamp timestamp ++ "_" ++ sanitizeFilename filepath

/-- Snapshot `saveToPendingReview(filepath, newContent)`; the ISO timestamp is an
explicit parameter.  Returns the review path and the snapshot effect. -/
def saveToPendingReview (timestamp filepath newContent : String) : String × List Effect :=
  let reviewPath := pendingReviewPath timestamp filepath
  (reviewPath, [Effect.saveReviewFile reviewPath newContent])

/-! ## `checkDangerousCommand` -/

/-- The literal override phrase the engine demands. -/
def overridePhrase : String := "OVERRIDE SAFETY PROTOCOL: [reason]"

/-- The `isDangerous && state.fatigue.level > config.fatigue_threshold`
expression shared by `checkDangerousCommand` (as `isBlocked`) and
`safeExecuteCommand` (as `shouldBlock`). -/
def cmdShouldBlock (command : String) (config : Config) (state : Fatigue) : Bool :=
  isDangerousCommand command config && decide (config.fatigue_threshold < state.level)

/-- Result record of `checkDangerousCommand`. -/
structure CheckResult where
  is_dangerous : Bool
  is_blocked : Bool
  fatigue : Fatigue
  message : String
  override_instruction : Option String

/-- Tool `checkDangerousCommand(command)`, with the ambient `loadConfig()` and
`getCurrentState().fatigue` reads passed in explicitly. -/
def checkDangerousCommand (command : String) (config : Config) (state : Fatigue) :
    CheckResult × List Effect :=
  let isDangerous := isDangerousCommand command config
  let isBlocked := cmdShouldBlock command config state
  if isBlocked then
    ({ is_dangerous := true
       is_blocked := true
       fatigue := state
       message := "⛔ INTERLOCK ENGAGED: High fatigue (" ++ toString state.level ++
         "%) detected. You have been active for " ++ ratRepr state.uptime_hours ++
         " hours. Command is blocked for safety."
       override_instruction := some ("To proceed, user MUST say: " ++ overridePhrase) }, [])
  else if isDangerous then
    ({ is_dangerous := true
       is_blocked := false
       fatigue := state
       message := "⚠️ Command is " ++ ("potentially dangerous" ++
         (", but fatigue (" ++ toString state.level ++ "%) is below threshold. Proceed with caution."))
       override_instruction := none }, [])
  else
    ({ is_dangerous := false
       is_blocked := false
       fatigue := state
       message := "✅ Command is safe."
       override_instruction := none }, [])

/-! ## `safeExecuteCommand` -/

/-- Outcome of the external `execSync` call (success = stdout; failure =
the message, captured stdout/stderr and `status` of the thrown error). -/
inductive ExecResult where
  | success (stdout : String)
  | failure (message : String) (stdout : String) (stderr : String) (status : Option Int)
deriving DecidableEq

/-- Exit code fallback `error.status || 1`. -/
def jsStatusOr1 : Option Int → Int
  | none => 1
  | some n => if n = 0 then 1 else n

/-- Result record of `safeExecuteCommand`. -/
structure ExecOutcome where
  status : String
  message : String
  stdout : Option String
  stderr : Option String
  exit_code : Option Int
  fatigue : Fatigue
  mode : String
  override_required : Option Bool

/-- The BLOCKED message of `safeExecuteCommand` (the override phrase is
kept as one inner piece so its presence is provable for any command). -/
def cmdBlockedMessage (state : Fatigue) (command : String) : String :=
  ("⛔ INTERLOCK ENGAGED\n\nHigh fatigue detected (" ++ toString state.level ++ "%, " ++
    state.category ++ ").\nYou have been active for " ++ ratRepr state.uptime_hours ++
    " hours.\n\nCommand `" ++ strTake command 50 ++
    "...` is high-risk and has been blocked.\n\nTo proceed, you MUST reply with:\n**") ++
  (overridePhrase ++ "**\n\nExample: `OVERRIDE SAFETY PROTOCOL: P0 production incident`")

/-- The SIMULATED message of `safeExecuteCommand`. -/
def cmdSimulatedMessage (command : String) : String :=
  "✅ [DRY RUN] " ++ ("Safety check passed" ++
    (".\n\nCommand: `" ++ command ++
     "`\n\nThis command WOULD have been executed.\n(Execution skipped: dry_run mode active)\n\nTo enable real execution, set `execution_mode: live` in ~/.humsana/config.yaml"))

/-- Tool `safeExecuteCommand(command, overrideReason)`, with ambient reads and
the `execSync` outcome passed in explicitly. -/
def safeExecuteCommand (command : String) (overrideReason : Option String)
    (config : Config) (state : Fatigue) (runner : ExecResult) :
    ExecOutcome × List Effect :=
  let shouldBlock := cmdShouldBlock command config state
  if shouldBlock && overridePresent overrideReason then
    let reason := overrideReason.getD ""
    let audit := Effect.auditLog ("[AUDIT] Override: " ++ command ++ " | Reason: " ++ reason)
    if config.execution_mode = "dry_run" then
      ({ status := "SIMULATED_OVERRIDE"
         message := "🚨 [DRY RUN] Override accepted.\n\nCommand: `" ++ command ++
           "`\nReason: " ++ reason ++
           "\n\nThis command WOULD have been executed with override.\n(Execution skipped: dry_run mode)"
         stdout := none, stderr := none, exit_code := none
         fatigue := state, mode := "dry_run", override_required := none }, [audit])
    else
      match runner with
      | .success out =>
        ({ status := "EXECUTED_OVERRIDE"
           message := "🚨 Command executed with safety override."
           stdout := some out, stderr := some "", exit_code := some 0
           fatigue := state, mode := "live", override_required := none },
         [audit, Effect.execCommand command])
      | .failure msg out err st =>
        ({ status := "ERROR"
           message := "Command failed: " ++ msg
           stdout := some out, stderr := some err, exit_code := some (jsStatusOr1 st)
           fatigue := state, mode := "live", override_required := none },
         [audit, Effect.execCommand command])
  else if shouldBlock then
    ({ status := "BLOCKED"
       message := cmdBlockedMessage state command
       stdout := none, stderr := none, exit_code := none
       fatigue := state, mode := config.execution_mode, override_required := some true }, [])
  else if config.execution_mode = "dry_run" then
    ({ status := "SIMULATED"
       message := cmdSimulatedMessage command
       stdout := none, stderr := none, exit_code := none
       fatigue := state, mode := "dry_run", override_required := none }, [])
  else
    match runner with
    | .success out =>
      ({ status := "EXECUTED"
         message := "✅ Command executed successfully."
         stdout := some out, stderr := some "", exit_code := some 0
         fatigue := state, mode := "live", override_required := none },
       [Effect.execCommand command])
    | .failure msg out err st =>
      ({ status := "ERROR"
         message := "Command failed: " ++ msg
         stdout := some out, stderr := some err, exit_code := some (jsStatusOr1 st)
         fatigue := state, mode := "live", override_required := none },
       [Effect.execCommand command])

/-! ## `safeWriteFile` -/

/-- The `impact` sub-record included in every `safeWriteFile` outcome. -/
structure ImpactOut where
  lines_removed : Nat
  lines_added : Nat
  percentage_removed : Int
deriving DecidableEq

/-- Projection of the analyzer result onto the reported sub-record. -/
def Impact.out (i : Impact) : ImpactOut :=
  { lines_removed := i.linesRemoved
    lines_added := i.linesAdded
    percentage_removed := i.percentageRemoved }

/-- Flag `fatigueLevel > 50 && isHighImpact` of `safeWriteFile`, where
`isHighImpact` is `impact.linesRemoved > config.write_warn_threshold`. -/
def writeShouldWarn (config : Config) (state : Fatigue) (impact : Impact) : Bool :=
  decide (50 < state.level) && decide (config.write_warn_threshold < (impact.linesRemoved : Int))

/-- Flag `fatigueLevel > 70 && isHighImpact` of `safeWriteFile`. -/
def writeShouldBlock (config : Config) (state : Fatigue) (impact : Impact) : Bool :=
  decide (70 < state.level) && decide (config.write_warn_threshold < (impact.linesRemoved : Int))

/-- Flag `fatigueLevel > 80 && isCriticalImpact` of `safeWriteFile`, where
`isCriticalImpact` is `impact.linesRemoved > config.write_block_threshold`. -/
def writeShouldHardBlock (config : Config) (state : Fatigue) (impact : Impact) : Bool :=
  decide (80 < state.level) && decide (config.write_block_threshold < (impact.linesRemoved : Int))

/-- Result record of `safeWriteFile`. -/
structure WriteOutcome where
  status : String
  message : String
  filepath : String
  impact : ImpactOut
  fatigue : Fatigue
  mode : String
  review_path : Option String
  override_required : Option Bool

/-- Tool `safeWriteFile(filepath, newContent, overrideReason)`.  Ambient reads
made explicit: the config, the fatigue state, the current target-file
content (`none` = the file does not exist) and the snapshot timestamp. -/
def safeWriteFile (filepath newContent : String) (overrideReason : Option String)
    (config : Config) (state : Fatigue) (existingContent : Option String)
    (timestamp : String) : WriteOutcome × List Effect :=
  let fatigueLevel := state.level
  let oldContent := existingContent.getD ""
  let isNewFile := existingContent.isNone
  let impact := calculateDestructiveImpact oldContent newContent
  let shouldWarn := writeShouldWarn config state impact
  let shouldBlock := writeShouldBlock config state impact
  let shouldHardBlock := writeShouldHardBlock config state impact
  if (shouldBlock || shouldHardBlock) && overridePresent overrideReason then
    let reason := overrideReason.getD ""
    let audit := Effect.auditLog ("[AUDIT] Write Override: " ++ filepath ++
      " | Removed: " ++ toString impact.linesRemoved ++ " lines | Reason: " ++ reason)
    if config.execution_mode = "dry_run" then
      ({ status := "SIMULATED_OVERRIDE"
         message := "🚨 [DRY RUN] Write override accepted.\n\nFile: `" ++ filepath ++
           "`\nLines removed: " ++ toString impact.linesRemoved ++
           "\nReason: " ++ reason ++
           "\n\nFile WOULD have been written.\n(Write skipped: dry_run mode)"
         filepath := filepath, impact := impact.out, fatigue := state
         mode := "dry_run", review_path := none, override_required := none }, [audit])
    else
      ({ status := "WRITTEN_OVERRIDE"
         message := "🚨 File written with safety override."
         filepath := filepath, impact := impact.out, fatigue := state
         mode := "live", review_path := none, override_required := none },
       [audit, Effect.ensureParentDir filepath, Effect.writeTargetFile filepath newContent])
  else if shouldHardBlock then
    let saved := saveToPendingReview timestamp filepath newContent
    ({ status := "BLOCKED"
       message := "⛔ INTERLOCK ENGAGED: High-Risk AI Edit Blocked\n\nYou are critically fatigued (" ++
         toString fatigueLevel ++ "%) and this AI change deletes " ++
         toString impact.linesRemoved ++ " lines (" ++ toString impact.percentageRemoved ++
         "% of the file).\n\n**You are unlikely to review this carefully.**\n\nThe proposed change has been saved to:\n`" ++
         saved.1 ++ ("`\n\nTo proceed, you MUST reply with:\n**" ++ (overridePhrase ++ "**"))
       filepath := filepath, impact := impact.out, fatigue := state
       mode := config.execution_mode, review_path := some saved.1
       override_required := some true }, saved.2)
  else if shouldBlock then
    let saved := saveToPendingReview timestamp filepath newContent
    ({ status := "BLOCKED"
       message := "⛔ INTERLOCK ENGAGED: AI Rewrite Blocked\n\nFatigue: " ++
         toString fatigueLevel ++ "% (" ++ state.category ++ ")\nLines removed: " ++
         toString impact.linesRemoved ++
         "\n\nThis AI change modifies significant code while you are fatigued.\n\nSaved for review: `" ++
         saved.1 ++ ("`\n\nTo proceed, reply with:\n**" ++ (overridePhrase ++ "**"))
       filepath := filepath, impact := impact.out, fatigue := state
       mode := config.execution_mode, review_path := some saved.1
       override_required := some true }, saved.2)
  else if shouldWarn then
    if config.execution_mode = "dry_run" then
      ({ status := "SIMULATED_WARNING"
         message := "⚠️ [DRY RUN] Warning: Large AI Edit\n\nFile: `" ++ filepath ++
           "`\nLines removed: " ++ toString impact.linesRemoved ++
           "\nFatigue: " ++ toString fatigueLevel ++
           "%\n\nThis is a significant change. Please review carefully.\n\nFile WOULD have been written.\n(Write skipped: dry_run mode)"
         filepath := filepath, impact := impact.out, fatigue := state
         mode := "dry_run", review_path := none, override_required := none }, [])
    else
      ({ status := "WRITTEN_WARNING"
         message := "⚠️ File written with warning.\n\nLines removed: " ++
           toString impact.linesRemoved ++ "\nFatigue: " ++ toString fatigueLevel ++
           "%\n\nPlease review this change carefully."
         filepath := filepath, impact := impact.out, fatigue := state
         mode := "live", review_path := none, override_required := none },
       [Effect.ensureParentDir filepath, Effect.writeTargetFile filepath newContent])
  else
    if config.execution_mode = "dry_run" then
      ({ status := "SIMULATED"
         message := "✅ [DRY RUN] Safety check passed.\n\nFile: `" ++ filepath ++ "`\n" ++
           (if isNewFile then "New file" else "Lines removed: " ++ toString impact.linesRemoved) ++
           "\n\nFile WOULD have been written.\n(Write skipped: dry_run mode)"
         filepath := filepath, impact := impact.out, fatigue := state
         mode := "dry_run", review_path := none, override_required := none }, [])
    else
      ({ status := "WRITTEN"
         message := "✅ File written successfully."
         filepath := filepath, impact := impact.out, fatigue := state
         mode := "live", review_path := none, override_required := none },
       [Effect.ensureParentDir filepath, Effect.writeTargetFile filepath newContent])

/-! ## Helper lemmas -/

theorem isPrefXB_append (p t : List Char) : isPrefXB p (p ++ t) = true := by
  induction p with
  | nil => simp [isPrefXB]
  | cons c cs ih => simp [isPrefXB, ih]

theorem containsSub_self_append (p b : List Char) : containsSub p (p ++ b) = true := by
  cases h : p ++ b with
  | nil =>
    have hp : p = [] := by
      cases p with
      | nil => rfl
      | cons x xs => simp at h
    subst hp
    simp [containsSub, isPrefXB]
  | cons c rest =>
    have h1 : isPrefXB p (p ++ b) = true := isPrefXB_append p b
    rw [h] at h1
    simp [containsSub, h1]

theorem containsSub_mid (a p b : List Char) : containsSub p (a ++ (p ++ b)) = true := by
  induction a with
  | nil => simpa using containsSub_self_append p b
  | cons c as ih => simp [containsSub, ih]

/-- The boolean substring test agrees with mathematical contiguous-
sublist containment. -/
theorem isPrefXB_iff (p s : List Char) : isPrefXB p s = true ↔ p <+: s := by
  induction p generalizing s with
  | nil => simp [isPrefXB]
  | cons c cs ih =>
    cases s with
    | nil =>
      simp only [isPrefXB]
      simp
    | cons d ds =>
      simp only [isPrefXB, Bool.and_eq_true, beq_iff_eq, List.cons_prefix_cons, ih]

theorem containsSub_iff (p s : List Char) : containsSub p s = true ↔ p <:+: s := by
  induction s with
  | nil =>
    simp [containsSub, isPrefXB_iff]
  | cons c rest ih =>
    rw [containsSub, List.infix_cons_iff]
    simp [isPrefXB_iff, ih]

/-- A string built around `p` contains `p`. -/
theorem strIncludes_mid (a p b : String) : strIncludes (a ++ (p ++ b)) p = true := by
  simpa [strIncludes, String.data_append] using containsSub_mid a.data p.data b.data

theorem splitOnChar_ne_nil (sep : Char) (cs : List Char) : splitOnChar sep cs ≠ [] := by
  cases cs with
  | nil => simp [splitOnChar]
  | cons c rest =>
    rw [splitOnChar]
    cases h : splitOnChar sep rest with
    | nil => simp
    | cons hh tt =>
      dsimp only
      split <;> simp

theorem splitLines_length_pos (s : String) : 0 < (splitLines s).length := by
  rw [splitLines, jsSplit, List.length_map]
  exact List.length_pos.mpr (splitOnChar_ne_nil '\n' s.data)

theorem parseIntOr_ne_zero (v : String) (d : Int) (hd : d ≠ 0) : parseIntOr v d ≠ 0 := by
  unfold parseIntOr
  cases jsParseInt v with
  | none => exact hd
  | some n =>
    by_cases hn : n = 0
    · simp [hn, hd]
    · simp [hn]

/-- Preservation of a property along the `loadConfig` line loop. -/
theorem foldl_applyConfigLine_preserves (P : Config → Prop)
    (h : ∀ c l, P c → P (applyConfigLine c l)) :
    ∀ (ls : List String) (c : Config), P c → P (ls.foldl applyConfigLine c) := by
  intro ls
  induction ls with
  | nil => intro c hc; exact hc
  | cons l rest ih => intro c hc; exact ih _ (h c l hc)

/-- Loop body `applyConfigLine` never touches the pattern lists. -/
theorem applyConfigLine_patterns (cfg : Config) (line : String) :
    (applyConfigLine cfg line).dangerous_commands = cfg.dangerous_commands ∧
    (applyConfigLine cfg line).deny_patterns = cfg.deny_patterns := by
  simp only [applyConfigLine]
  split
  · exact ⟨rfl, rfl⟩
  · split
    · exact ⟨rfl, rfl⟩
    · split_ifs <;> exact ⟨rfl, rfl⟩

/-- Loop body `applyConfigLine` keeps all three thresholds away from `0`. -/
theorem applyConfigLine_thresholds (cfg : Config) (line : String)
    (h1 : cfg.fatigue_threshold ≠ 0) (h2 : cfg.write_warn_threshold ≠ 0)
    (h3 : cfg.write_block_threshold ≠ 0) :
    (applyConfigLine cfg line).fatigue_threshold ≠ 0 ∧
    (applyConfigLine cfg line).write_warn_threshold ≠ 0 ∧
    (applyConfigLine cfg line).write_block_threshold ≠ 0 := by
  simp only [applyConfigLine]
  split
  · exact ⟨h1, h2, h3⟩
  · split
    · exact ⟨h1, h2, h3⟩
    · split_ifs <;>
        refine ⟨?_, ?_, ?_⟩ <;>
          first
            | assumption
            | exact parseIntOr_ne_zero _ _ (by decide)

/-- Every loadable configuration keeps the built-in pattern lists: the
loader has no parsing branch for `dangerous_commands` or
`deny_patterns`. -/
theorem loadConfig_patterns (file : Option String) :
    (loadConfig file).dangerous_commands = DEFAULT_DANGEROUS_PATTERNS ∧
    (loadConfig file).deny_patterns = [] := by
  cases file with
  | none => exact ⟨rfl, rfl⟩
  | some content =>
    exact foldl_applyConfigLine_preserves
      (fun c => c.dangerous_commands = DEFAULT_DANGEROUS_PATTERNS ∧ c.deny_patterns = [])
      (fun c l hc => by
        obtain ⟨ha, hb⟩ := applyConfigLine_patterns c l
        exact ⟨ha.trans hc.1, hb.trans hc.2⟩)
      (splitLines content) defaultConfig ⟨rfl, rfl⟩

/-! ## Claim C3 — fatigue formula -/

/-- C3 (counterexample): the claim states the fatigue level equals
`clamp(0,100, min(60, uptime/12*60) + stress*40)` with no rounding, but
the code applies `Math.round` before clamping.  At `stress = 1/100`,
`uptime = 0` the claimed value is `2/5` while `calculateFatigue`
returns `0`. -/
theorem c3_fatigue_formula_counterexample :
    calculateFatigue (1/100) 0 = 0 ∧
    min (100:ℚ) (max 0 (min 60 ((0:ℚ)/12*60) + (1/100)*40)) = 2/5 ∧
    ((calculateFatigue (1/100) 0 : ℚ) ≠
      min (100:ℚ) (max 0 (min 60 ((0:ℚ)/12*60) + (1/100)*40))) := by
  refine ⟨?_, ?_, ?_⟩
  · norm_num [calculateFatigue, jsRound, min_def, max_def]
  · norm_num [min_def, max_def]
  · norm_num [calculateFatigue, jsRound, min_def, max_def]

/-- C3 (amended): for stress in `[0,1]` and uptime `≥ 0` the fatigue
level is `clamp(0,100, round(min(60, uptime/12*60) + stress*40))`, where
`round` is round-half-up; the clamp is the identity there (the value is
already in `[0,100]`), `fatigue(0,0) = 0` and `fatigue(1, ≥12h) = 100`. -/
theorem c3_fatigue_formula_amended (stress uptime : ℚ)
    (hs0 : 0 ≤ stress) (hs1 : stress ≤ 1) (hu : 0 ≤ uptime) :
    calculateFatigue stress uptime = jsRound (min 60 (uptime/12*60) + stress*40) ∧
    0 ≤ calculateFatigue stress uptime ∧
    calculateFatigue stress uptime ≤ 100 ∧
    calculateFatigue 0 0 = 0 ∧
    (12 ≤ uptime → calculateFatigue 1 uptime = 100) := by
  have hb0 : (0:ℚ) ≤ min 60 (uptime/12*60) :=
    le_min (by norm_num) (by positivity)
  have hb60 : min (60:ℚ) (uptime/12*60) ≤ 60 := min_le_left _ _
  have hx0 : (0:ℚ) ≤ min 60 (uptime/12*60) + stress*40 := by
    have : (0:ℚ) ≤ stress*40 := by positivity
    linarith
  have hx100 : min (60:ℚ) (uptime/12*60) + stress*40 ≤ 100 := by
    have : stress*40 ≤ 40 := by nlinarith
    linarith
  have hr0 : (0:Int) ≤ jsRound (min 60 (uptime/12*60) + stress*40) := by
    rw [jsRound]
    rw [Int.le_floor]
    push_cast
    linarith
  have hr100 : jsRound (min 60 (uptime/12*60) + stress*40) ≤ 100 := by
    rw [jsRound]
    have h1 : min (60:ℚ) (uptime/12*60) + stress*40 + 1/2 ≤ 201/2 := by linarith
    have h2 := Int.floor_mono h1
    have h3 : ⌊(201/2 : ℚ)⌋ = 100 := by norm_num
    omega
  have hmain : calculateFatigue stress uptime =
      jsRound (min 60 (uptime/12*60) + stress*40) := by
    rw [calculateFatigue]
    rw [max_eq_right hr0, min_eq_right hr100]
  refine ⟨hmain, ?_, ?_, ?_, ?_⟩
  · rw [hmain]; exact hr0
  · rw [hmain]; exact hr100
  · norm_num [calculateFatigue, jsRound, min_def, max_def]
  · intro h12
    have hmin : min (60:ℚ) (uptime/12*60) = 60 := by
      rw [min_eq_left]
      linarith
    rw [calculateFatigue]
    rw [hmin]
    norm_num [jsRound]

/-- Witness for C3 (amended) at stress `1`, uptime `12`. -/
theorem c3_fatigue_formula_amended_witness : calculateFatigue 1 12 = 100 :=
  (c3_fatigue_formula_amended 1 12 (by norm_num) (by norm_num) (by norm_num)).2.2.2.2
    (by norm_num)

/-! ## Claim C9 — checking a command has no side effects -/

/-- C9: for every command, configuration and fatigue state,
`checkDangerousCommand` performs no effect at all (no execution, no file
write, no audit entry); its only product is the returned report. -/
theorem c9_check_command_no_effects (command : String) (config : Config) (state : Fatigue) :
    (checkDangerousCommand command config state).2 = [] := by
  simp only [checkDangerousCommand]
  split <;> first | rfl | (split <;> rfl)

/-! ## Claim C1 — command interlock blocks exactly on dangerous ∧ fatigue > threshold -/

/-- The shared blocking flag unfolded to its defining condition. -/
theorem cmdShouldBlock_iff (command : String) (config : Config) (state : Fatigue) :
    cmdShouldBlock command config state = true ↔
      (isDangerousCommand command config = true ∧ config.fatigue_threshold < state.level) := by
  simp [cmdShouldBlock]

/-- C1: `checkDangerousCommand` reports blocked exactly when the command
is dangerous and fatigue strictly exceeds the threshold, and then carries
the literal override instruction; `safeExecuteCommand` (without an
override reason) returns BLOCKED under exactly the same condition, its
BLOCKED message contains the literal override phrase, a BLOCKED outcome
performs no effect (in particular the command is not executed); at
fatigue equal to the threshold nothing is blocked. -/
theorem c1_command_interlock (command : String) (config : Config) (state : Fatigue)
    (o : Option String) (runner : ExecResult) :
    ((checkDangerousCommand command config state).1.is_blocked = true ↔
      (isDangerousCommand command config = true ∧ config.fatigue_threshold < state.level)) ∧
    ((checkDangerousCommand command config state).1.is_blocked = true →
      (checkDangerousCommand command config state).1.override_instruction =
        some ("To proceed, user MUST say: " ++ overridePhrase)) ∧
    (overridePresent o = false →
      ((safeExecuteCommand command o config state runner).1.status = "BLOCKED" ↔
        (isDangerousCommand command config = true ∧ config.fatigue_threshold < state.level))) ∧
    ((safeExecuteCommand command o config state runner).1.status = "BLOCKED" →
      strIncludes (safeExecuteCommand command o config state runner).1.message
        overridePhrase = true ∧
      (safeExecuteCommand command o config state runner).2 = []) ∧
    (state.level = config.fatigue_threshold →
      (checkDangerousCommand command config state).1.is_blocked = false ∧
      (safeExecuteCommand command o config state runner).1.status ≠ "BLOCKED") := by
  have hmsg : ∀ st cmd, strIncludes (cmdBlockedMessage st cmd) overridePhrase = true := by
    intro st cmd
    exact strIncludes_mid _ _ _
  refine ⟨?_, ?_, ?_, ?_, ?_⟩
  · rw [← cmdShouldBlock_iff]
    by_cases hB : cmdShouldBlock command config state = true
    · simp [checkDangerousCommand, hB]
    · rw [Bool.not_eq_true] at hB
      by_cases hD : isDangerousCommand command config = true <;>
        simp [checkDangerousCommand, hB, hD]
  · intro h
    by_cases hB : cmdShouldBlock command config state = true
    · simp [checkDangerousCommand, hB]
    · rw [Bool.not_eq_true] at hB
      by_cases hD : isDangerousCommand command config = true <;>
        simp [checkDangerousCommand, hB, hD] at h
  · intro hO
    rw [← cmdShouldBlock_iff]
    by_cases hB : cmdShouldBlock command config state = true
    · simp [safeExecuteCommand, hB, hO]
    · rw [Bool.not_eq_true] at hB
      by_cases hM : config.execution_mode = "dry_run"
      · simp [safeExecuteCommand, hB, hM]
      · cases runner <;> simp [safeExecuteCommand, hB, hM]
  · intro h
    by_cases hB : cmdShouldBlock command config state = true
    · by_cases hO : overridePresent o = true
      · exfalso
        by_cases hM : config.execution_mode = "dry_run"
        · simp [safeExecuteCommand, hB, hO, hM] at h
        · cases runner <;> simp [safeExecuteCommand, hB, hO, hM] at h
      · rw [Bool.not_eq_true] at hO
        constructor
        · simp [safeExecuteCommand, hB, hO, hmsg]
        · simp [safeExecuteCommand, hB, hO]
    · exfalso
      rw [Bool.not_eq_true] at hB
      by_cases hM : config.execution_mode = "dry_run"
      · simp [safeExecuteCommand, hB, hM] at h
      · cases runner <;> simp [safeExecuteCommand, hB, hM] at h
  · intro hEq
    have hB : cmdShouldBlock command config state = false := by
      simp [cmdShouldBlock, hEq]
    constructor
    · by_cases hD : isDangerousCommand command config = true <;>
        simp [checkDangerousCommand, hB, hD]
    · by_cases hM : config.execution_mode = "dry_run"
      · simp [safeExecuteCommand, hB, hM]
      · cases runner <;> simp [safeExecuteCommand, hB, hM]

/-- Witness for C1: `rm -rf /` under the default configuration at
fatigue 71 (> threshold 70) is blocked by both entry points, with the
override instruction attached and no effect performed. -/
theorem c1_command_interlock_witness :
    (checkDangerousCommand "rm -rf /" defaultConfig ⟨71, "high", 9⟩).1.is_blocked = true ∧
    (checkDangerousCommand "rm -rf /" defaultConfig ⟨71, "high", 9⟩).1.override_instruction =
      some ("To proceed, user MUST say: " ++ overridePhrase) ∧
    (safeExecuteCommand "rm -rf /" none defaultConfig ⟨71, "high", 9⟩ (.success "")).1.status =
      "BLOCKED" ∧
    (safeExecuteCommand "rm -rf /" none defaultConfig ⟨71, "high", 9⟩ (.success "")).2 = [] := by
  have h := c1_command_interlock "rm -rf /" defaultConfig ⟨71, "high", 9⟩ none (.success "")
  have hcond : isDangerousCommand "rm -rf /" defaultConfig = true ∧
      defaultConfig.fatigue_threshold < (Fatigue.mk 71 "high" 9).level := by
    constructor
    · decide
    · decide
  have hblocked := (h.1).mpr hcond
  have hstatus := (h.2.2.1 rfl).mpr hcond
  exact ⟨hblocked, h.2.1 hblocked, hstatus, (h.2.2.2.1 hstatus).2⟩

/-! ## Claim C7 — risk classifier and the deny-pattern merge -/

/-- C7 (counterexample): the claim says the matched pattern set includes
"user-configured deny patterns loaded from the configuration file", but
`loadConfig` has no parsing branch for `deny_patterns`: a config file
configuring a deny pattern loads to the plain defaults, and a command
that contains that pattern (case-insensitively) is still classified not
dangerous. -/
theorem c7_risk_classifier_counterexample :
    loadConfig (some "deny_patterns: shutdown") = defaultConfig ∧
    (loadConfig (some "deny_patterns: shutdown")).deny_patterns = [] ∧
    isDangerousCommand "shutdown -h now" (loadConfig (some "deny_patterns: shutdown")) = false ∧
    strIncludes (jsToLower "shutdown -h now") (jsToLower "shutdown") = true := by
  refine ⟨by decide, by decide, by decide, by decide⟩

/-- C7 (amended): the classifier returns dangerous iff some pattern of
`config.dangerous_commands ++ config.deny_patterns` occurs inside the
command under case-insensitive substring containment; however, for every
configuration file the loader leaves `dangerous_commands` at the
built-ins and `deny_patterns` empty (deny patterns are never loaded from
the file), so the merged set in effect is exactly the built-in list.
`"DROP TABLE users"` is dangerous and `"ls -la"` is not. -/
theorem c7_risk_classifier_amended :
    (∀ (command : String) (config : Config),
      isDangerousCommand command config = true ↔
        ∃ p ∈ config.dangerous_commands ++ config.deny_patterns,
          (jsToLower p).data <:+: (jsToLower command).data) ∧
    (∀ file : Option String,
      (loadConfig file).dangerous_commands = DEFAULT_DANGEROUS_PATTERNS ∧
      (loadConfig file).deny_patterns = []) ∧
    isDangerousCommand "DROP TABLE users" (loadConfig none) = true ∧
    isDangerousCommand "ls -la" (loadConfig none) = false := by
  refine ⟨?_, loadConfig_patterns, by decide, by decide⟩
  intro command config
  simp only [isDangerousCommand, List.any_eq_true, strIncludes, containsSub_iff]

/-! ## Claim C10 — zero or non-numeric thresholds fall back to defaults -/

/-- C10: a configured threshold that parses to `0` or to a non-number is
silently replaced by the built-in default (70 / 30 / 50), because the
parsed value is combined with the default by `||`; consequently no
loaded configuration can carry a `0` threshold. -/
theorem c10_threshold_truthiness :
    (∀ file : Option String,
      (loadConfig file).fatigue_threshold ≠ 0 ∧
      (loadConfig file).write_warn_threshold ≠ 0 ∧
      (loadConfig file).write_block_threshold ≠ 0) ∧
    (∀ (v : String) (d : Int),
      (jsParseInt v = none ∨ jsParseInt v = some 0) → parseIntOr v d = d) ∧
    (loadConfig (some "fatigue_threshold: 0")).fatigue_threshold = 70 ∧
    (loadConfig (some "fatigue_threshold: abc")).fatigue_threshold = 70 ∧
    (loadConfig (some "write_warn_threshold: 0")).write_warn_threshold = 30 ∧
    (loadConfig (some "write_block_threshold: 0")).write_block_threshold = 50 := by
  refine ⟨?_, ?_, by decide, by decide, by decide, by decide⟩
  · intro file
    cases file with
    | none => exact ⟨by decide, by decide, by decide⟩
    | some content =>
      exact foldl_applyConfigLine_preserves
        (fun c => c.fatigue_threshold ≠ 0 ∧ c.write_warn_threshold ≠ 0 ∧
          c.write_block_threshold ≠ 0)
        (fun c l hc => applyConfigLine_thresholds c l hc.1 hc.2.1 hc.2.2)
        (splitLines content) defaultConfig ⟨by decide, by decide, by decide⟩
  · intro v d h
    unfold parseIntOr
    rcases h with h | h <;> rw [h]
    simp

/-- Witness for C10: the value `"0"` parses to `0` and falls back to the
default 70; `"abc"` parses to `NaN` and falls back to the default 30. -/
theorem c10_threshold_truthiness_witness :
    parseIntOr "0" 70 = 70 ∧ parseIntOr "abc" 30 = 30 :=
  ⟨c10_threshold_truthiness.2.1 "0" 70 (Or.inr (by decide)),
   c10_threshold_truthiness.2.1 "abc" 30 (Or.inl (by decide))⟩

/-! ## Claim C6 — impact analyzer semantics -/

/-- Newline join used to build the example contents. -/
def joinLines : List String → String
  | [] => ""
  | [s] => s
  | s :: rest => s ++ "\n" ++ joinLines rest

/-- Example old content: 100 distinct non-blank lines. -/
def exOldContent : String :=
  joinLines ((List.range 100).map (fun i => "line" ++ toString i))

/-- Example new content: keeps the first 60 old lines (removing 40
distinct ones) and adds 5 new ones. -/
def exNewContent : String :=
  joinLines (((List.range 60).map (fun i => "line" ++ toString i)) ++
    ((List.range 5).map (fun i => "extra" ++ toString i)))

set_option maxRecDepth 40000 in
/-- C6: a line text counts as removed iff it is in the line set of the
old content (trimmed, non-empty lines) and absent from the line set of
the new content (symmetrically for added); `percentage_removed` is
`round(lines_removed / total_old_lines * 100)` (`0` for an empty old
file); on the specified 100-line example the report is
`lines_removed = 40, lines_added = 5, percentage_removed = 40`. -/
theorem c6_impact_semantics (oldC newC : String) :
    ((calculateDestructiveImpact oldC newC).linesRemoved =
      ((lineSet oldC).filter (fun s => s ∉ lineSet newC)).card) ∧
    ((calculateDestructiveImpact oldC newC).linesAdded =
      ((lineSet newC).filter (fun s => s ∉ lineSet oldC)).card) ∧
    (∀ s : String, s ∈ lineSet oldC ↔ s ≠ "" ∧ ∃ l ∈ splitLines oldC, jsTrim l = s) ∧
    ((calculateDestructiveImpact oldC newC).percentageRemoved =
      jsRound (((calculateDestructiveImpact oldC newC).linesRemoved : ℚ) /
        ((calculateDestructiveImpact oldC newC).totalOldLines : ℚ) * 100)) ∧
    (oldC = "" → (calculateDestructiveImpact oldC newC).percentageRemoved = 0) ∧
    ((calculateDestructiveImpact exOldContent exNewContent).linesRemoved = 40) ∧
    ((calculateDestructiveImpact exOldContent exNewContent).linesAdded = 5) ∧
    ((calculateDestructiveImpact exOldContent exNewContent).totalOldLines = 100) ∧
    ((calculateDestructiveImpact exOldContent exNewContent).percentageRemoved = 40) := by
  have hform : ∀ o n : String, (calculateDestructiveImpact o n).percentageRemoved =
      jsRound (((calculateDestructiveImpact o n).linesRemoved : ℚ) /
        ((calculateDestructiveImpact o n).totalOldLines : ℚ) * 100) := by
    intro o n
    simp only [calculateDestructiveImpact]
    rw [if_pos (splitLines_length_pos o)]
  have hex_lr : (calculateDestructiveImpact exOldContent exNewContent).linesRemoved = 40 := by
    decide
  have hex_tot : (calculateDestructiveImpact exOldContent exNewContent).totalOldLines = 100 := by
    decide
  refine ⟨?_, ?_, ?_, hform oldC newC, ?_, hex_lr, by decide, hex_tot, ?_⟩
  · simp only [calculateDestructiveImpact]
    rw [Finset.sdiff_eq_filter]
  · simp only [calculateDestructiveImpact]
    rw [Finset.sdiff_eq_filter]
  · intro s
    simp only [lineSet, List.mem_toFinset, List.mem_filter, List.mem_map,
      decide_eq_true_eq]
    constructor
    · rintro ⟨⟨l, hl, rfl⟩, hne⟩
      exact ⟨hne, l, hl, rfl⟩
    · rintro ⟨hne, l, hl, rfl⟩
      exact ⟨⟨l, hl, rfl⟩, hne⟩
  · intro h0
    subst h0
    have hempty : lineSet "" = ∅ := by decide
    have h1 : (calculateDestructiveImpact "" newC).linesRemoved = 0 := by
      simp only [calculateDestructiveImpact]
      rw [hempty]
      simp
    have h2 : (calculateDestructiveImpact "" newC).totalOldLines = 1 := by
      simp only [calculateDestructiveImpact]
      decide
    rw [hform "" newC, h1, h2]
    norm_num [jsRound]
  · rw [hform exOldContent exNewContent, hex_lr, hex_tot]
    norm_num [jsRound]

/-- Witness for C6 at an empty old file: the percentage is defined as 0. -/
theorem c6_impact_semantics_witness :
    (calculateDestructiveImpact "" "x").percentageRemoved = 0 :=
  (c6_impact_semantics "" "x").2.2.2.2.1 rfl

/-! ## Claim C2 — write interlock tiers -/

theorem writeShouldWarn_iff (config : Config) (state : Fatigue) (impact : Impact) :
    writeShouldWarn config state impact = true ↔
      (50 < state.level ∧ config.write_warn_threshold < (impact.linesRemoved : Int)) := by
  simp [writeShouldWarn]

theorem writeShouldBlock_iff (config : Config) (state : Fatigue) (impact : Impact) :
    writeShouldBlock config state impact = true ↔
      (70 < state.level ∧ config.write_warn_threshold < (impact.linesRemoved : Int)) := by
  simp [writeShouldBlock]

theorem writeShouldHardBlock_iff (config : Config) (state : Fatigue) (impact : Impact) :
    writeShouldHardBlock config state impact = true ↔
      (80 < state.level ∧ config.write_block_threshold < (impact.linesRemoved : Int)) := by
  simp [writeShouldHardBlock]

/-- C2: without an override, `safeWriteFile` returns BLOCKED exactly when
(fatigue > 70 and lines_removed > write_warn_threshold) or (fatigue > 80
and lines_removed > write_block_threshold); a BLOCKED outcome snapshots
the proposed content to the review directory as its only effect (in
particular the target file is not written); a warn-tier outcome occurs
exactly when fatigue > 50 and lines_removed > write_warn_threshold and
no block applies, and in live mode it writes the target file and returns
the WRITTEN_WARNING status. -/
theorem c2_write_interlock (filepath newContent : String) (config : Config)
    (state : Fatigue) (old : Option String) (ts : String) :
    ((safeWriteFile filepath newContent none config state old ts).1.status = "BLOCKED" ↔
      ((70 < state.level ∧ config.write_warn_threshold <
          ((calculateDestructiveImpact (old.getD "") newContent).linesRemoved : Int)) ∨
       (80 < state.level ∧ config.write_block_threshold <
          ((calculateDestructiveImpact (old.getD "") newContent).linesRemoved : Int)))) ∧
    ((safeWriteFile filepath newContent none config state old ts).1.status = "BLOCKED" →
      (safeWriteFile filepath newContent none config state old ts).2 =
        [Effect.saveReviewFile (pendingReviewPath ts filepath) newContent] ∧
      (safeWriteFile filepath newContent none config state old ts).1.review_path =
        some (pendingReviewPath ts filepath) ∧
      (∀ c : String,
        Effect.writeTargetFile filepath c ∉
          (safeWriteFile filepath newContent none config state old ts).2)) ∧
    (((safeWriteFile filepath newContent none config state old ts).1.status =
        "SIMULATED_WARNING" ∨
      (safeWriteFile filepath newContent none config state old ts).1.status =
        "WRITTEN_WARNING") ↔
      ((50 < state.level ∧ config.write_warn_threshold <
          ((calculateDestructiveImpact (old.getD "") newContent).linesRemoved : Int)) ∧
       ¬(70 < state.level ∧ config.write_warn_threshold <
          ((calculateDestructiveImpact (old.getD "") newContent).linesRemoved : Int)) ∧
       ¬(80 < state.level ∧ config.write_block_threshold <
          ((calculateDestructiveImpact (old.getD "") newContent).linesRemoved : Int)))) ∧
    ((50 < state.level ∧ config.write_warn_threshold <
        ((calculateDestructiveImpact (old.getD "") newContent).linesRemoved : Int)) →
     ¬(70 < state.level ∧ config.write_warn_threshold <
        ((calculateDestructiveImpact (old.getD "") newContent).linesRemoved : Int)) →
     ¬(80 < state.level ∧ config.write_block_threshold <
        ((calculateDestructiveImpact (old.getD "") newContent).linesRemoved : Int)) →
     config.execution_mode ≠ "dry_run" →
      (safeWriteFile filepath newContent none config state old ts).1.status =
        "WRITTEN_WARNING" ∧
      Effect.writeTargetFile filepath newContent ∈
        (safeWriteFile filepath newContent none config state old ts).2) := by
  have hW := writeShouldWarn_iff config state (calculateDestructiveImpact (old.getD "") newContent)
  have hB := writeShouldBlock_iff config state (calculateDestructiveImpact (old.getD "") newContent)
  have hH := writeShouldHardBlock_iff config state (calculateDestructiveImpact (old.getD "") newContent)
  by_cases hb : writeShouldBlock config state (calculateDestructiveImpact (old.getD "") newContent) = true <;>
    by_cases hh : writeShouldHardBlock config state (calculateDestructiveImpact (old.getD "") newContent) = true <;>
      by_cases hw : writeShouldWarn config state (calculateDestructiveImpact (old.getD "") newContent) = true <;>
        by_cases hm : config.execution_mode = "dry_run" <;>
          refine ⟨?_, ?_, ?_, ?_⟩ <;>
            simp_all [safeWriteFile, overridePresent, saveToPendingReview]

/-- Old content for the write-interlock witness: 40 distinct lines. -/
def wOldContent : String :=
  joinLines ((List.range 40).map (fun i => "stmt" ++ toString i))

/-- New content for the write-interlock witness: keeps the first 5 lines,
so 35 lines are removed (> warn 30, ≤ block 50). -/
def wNewContent : String :=
  joinLines ((List.range 5).map (fun i => "stmt" ++ toString i))

set_option maxRecDepth 40000 in
/-- Witness for C2, instantiating the specified matrix rows: fatigue 75 with
35 lines removed blocks and snapshots; fatigue 60 with 35 lines removed
in live mode writes with a warning. -/
theorem c2_write_interlock_witness :
    (safeWriteFile "/tmp/app.ts" wNewContent none defaultConfig ⟨75, "high", 9⟩
        (some wOldContent) "T").1.status = "BLOCKED" ∧
    (safeWriteFile "/tmp/app.ts" wNewContent none defaultConfig ⟨75, "high", 9⟩
        (some wOldContent) "T").2 =
      [Effect.saveReviewFile (pendingReviewPath "T" "/tmp/app.ts") wNewContent] ∧
    (safeWriteFile "/tmp/app.ts" wNewContent none
        { defaultConfig with execution_mode := "live" } ⟨60, "moderate", 7⟩
        (some wOldContent) "T").1.status = "WRITTEN_WARNING" ∧
    Effect.writeTargetFile "/tmp/app.ts" wNewContent ∈
      (safeWriteFile "/tmp/app.ts" wNewContent none
        { defaultConfig with execution_mode := "live" } ⟨60, "moderate", 7⟩
        (some wOldContent) "T").2 := by
  have h1 := c2_write_interlock "/tmp/app.ts" wNewContent defaultConfig ⟨75, "high", 9⟩
    (some wOldContent) "T"
  have h2 := c2_write_interlock "/tmp/app.ts" wNewContent
    { defaultConfig with execution_mode := "live" } ⟨60, "moderate", 7⟩
    (some wOldContent) "T"
  have hs1 : (safeWriteFile "/tmp/app.ts" wNewContent none defaultConfig ⟨75, "high", 9⟩
      (some wOldContent) "T").1.status = "BLOCKED" :=
    h1.1.mpr (Or.inl ⟨by decide, by decide⟩)
  have hwarn := h2.2.2.2 ⟨by decide, by decide⟩ (by decide) (by decide) (by decide)
  exact ⟨hs1, (h1.2.1 hs1).1, hwarn.1, hwarn.2⟩

/-! ## Claim C5 — the override gate checks only that a reason is present -/

theorem overridePresent_some_iff (s : String) :
    overridePresent (some s) = true ↔ s ≠ "" := by
  cases s with
  | mk l =>
    cases l with
    | nil => simp [overridePresent]
    | cons c cs =>
      simp only [overridePresent, List.isEmpty_cons, Bool.not_false]
      constructor
      · intro _ h
        exact List.cons_ne_nil c cs (congrArg String.data h)
      · intro _
        trivial

/-- C5: on a blocked command or write, any non-empty override reason
yields the overridden outcome (SIMULATED_OVERRIDE in dry-run;
EXECUTED_OVERRIDE / WRITTEN_OVERRIDE in live mode, the command case when
execution succeeds) and records an audit entry; the outcome status never
depends on the content of the reason, only on its presence; an absent or
empty reason leaves the action BLOCKED. -/
theorem c5_override_gate (command : String) (config : Config) (state : Fatigue)
    (reason : String) (runner : ExecResult) (filepath newContent : String)
    (old : Option String) (ts : String) :
    (cmdShouldBlock command config state = true → reason ≠ "" →
      (Effect.auditLog ("[AUDIT] Override: " ++ command ++ " | Reason: " ++ reason) ∈
        (safeExecuteCommand command (some reason) config state runner).2) ∧
      (config.execution_mode = "dry_run" →
        (safeExecuteCommand command (some reason) config state runner).1.status =
          "SIMULATED_OVERRIDE") ∧
      (config.execution_mode ≠ "dry_run" → ∀ out : String, runner = .success out →
        (safeExecuteCommand command (some reason) config state runner).1.status =
          "EXECUTED_OVERRIDE")) ∧
    (cmdShouldBlock command config state = true →
      (safeExecuteCommand command none config state runner).1.status = "BLOCKED" ∧
      (safeExecuteCommand command (some "") config state runner).1.status = "BLOCKED") ∧
    (∀ r1 r2 : String, r1 ≠ "" → r2 ≠ "" →
      (safeExecuteCommand command (some r1) config state runner).1.status =
        (safeExecuteCommand command (some r2) config state runner).1.status) ∧
    ((writeShouldBlock config state
        (calculateDestructiveImpact (old.getD "") newContent) = true ∨
      writeShouldHardBlock config state
        (calculateDestructiveImpact (old.getD "") newContent) = true) →
      reason ≠ "" →
      (Effect.auditLog ("[AUDIT] Write Override: " ++ filepath ++ " | Removed: " ++
          toString (calculateDestructiveImpact (old.getD "") newContent).linesRemoved ++
          " lines | Reason: " ++ reason) ∈
        (safeWriteFile filepath newContent (some reason) config state old ts).2) ∧
      (config.execution_mode = "dry_run" →
        (safeWriteFile filepath newContent (some reason) config state old ts).1.status =
          "SIMULATED_OVERRIDE") ∧
      (config.execution_mode ≠ "dry_run" →
        (safeWriteFile filepath newContent (some reason) config state old ts).1.status =
          "WRITTEN_OVERRIDE" ∧
        Effect.writeTargetFile filepath newContent ∈
          (safeWriteFile filepath newContent (some reason) config state old ts).2)) ∧
    ((writeShouldBlock config state
        (calculateDestructiveImpact (old.getD "") newContent) = true ∨
      writeShouldHardBlock config state
        (calculateDestructiveImpact (old.getD "") newContent) = true) →
      (safeWriteFile filepath newContent none config state old ts).1.status = "BLOCKED" ∧
      (safeWriteFile filepath newContent (some "") config state old ts).1.status =
        "BLOCKED") := by
  refine ⟨?_, ?_, ?_, ?_, ?_⟩
  · intro hSB hr
    have hO : overridePresent (some reason) = true := (overridePresent_some_iff reason).mpr hr
    refine ⟨?_, ?_, ?_⟩
    · by_cases hm : config.execution_mode = "dry_run"
      · simp [safeExecuteCommand, hSB, hO, hm]
      · cases runner <;> simp [safeExecuteCommand, hSB, hO, hm]
    · intro hm
      simp [safeExecuteCommand, hSB, hO, hm]
    · intro hm out hrun
      subst hrun
      simp [safeExecuteCommand, hSB, hO, hm]
  · intro hSB
    constructor
    · simp [safeExecuteCommand, hSB, overridePresent]
    · simp [safeExecuteCommand, hSB, overridePresent]
  · intro r1 r2 h1 h2
    have hO1 : overridePresent (some r1) = true := (overridePresent_some_iff r1).mpr h1
    have hO2 : overridePresent (some r2) = true := (overridePresent_some_iff r2).mpr h2
    by_cases hSB : cmdShouldBlock command config state = true <;>
      by_cases hm : config.execution_mode = "dry_run" <;>
        cases runner <;> simp [safeExecuteCommand, hSB, hO1, hO2, hm]
  · intro hBlk hr
    have hO : overridePresent (some reason) = true := (overridePresent_some_iff reason).mpr hr
    have hOr : (writeShouldBlock config state
        (calculateDestructiveImpact (old.getD "") newContent) ||
      writeShouldHardBlock config state
        (calculateDestructiveImpact (old.getD "") newContent)) = true := by
      rcases hBlk with h | h <;> simp [h]
    refine ⟨?_, ?_, ?_⟩
    · by_cases hm : config.execution_mode = "dry_run" <;>
        simp [safeWriteFile, hOr, hO, hm]
    · intro hm
      simp [safeWriteFile, hOr, hO, hm]
    · intro hm
      simp [safeWriteFile, hOr, hO, hm]
  · intro hBlk
    have hOr : (writeShouldBlock config state
        (calculateDestructiveImpact (old.getD "") newContent) ||
      writeShouldHardBlock config state
        (calculateDestructiveImpact (old.getD "") newContent)) = true := by
      rcases hBlk with h | h <;> simp [h]
    rcases hBlk with h | h
    · by_cases hh : writeShouldHardBlock config state
          (calculateDestructiveImpact (old.getD "") newContent) = true <;>
        constructor <;> simp [safeWriteFile, h, hh, overridePresent]
    · constructor <;> simp [safeWriteFile, h, overridePresent]

set_option maxRecDepth 40000 in
/-- Witness for C5: a blocked `rm -rf /` at fatigue 75 with override
reason "P0 incident" simulates the override and records the audit entry
(default dry-run config); the blocked 35-line rewrite with the same
reason is simulated-overridden too; with no reason both stay BLOCKED. -/
theorem c5_override_gate_witness :
    (safeExecuteCommand "rm -rf /" (some "P0 incident") defaultConfig ⟨75, "high", 9⟩
        (.success "")).1.status = "SIMULATED_OVERRIDE" ∧
    Effect.auditLog ("[AUDIT] Override: " ++ "rm -rf /" ++ " | Reason: " ++ "P0 incident") ∈
      (safeExecuteCommand "rm -rf /" (some "P0 incident") defaultConfig ⟨75, "high", 9⟩
        (.success "")).2 ∧
    (safeWriteFile "/tmp/app.ts" wNewContent (some "P0 incident") defaultConfig
        ⟨75, "high", 9⟩ (some wOldContent) "T").1.status = "SIMULATED_OVERRIDE" ∧
    (safeExecuteCommand "rm -rf /" none defaultConfig ⟨75, "high", 9⟩
        (.success "")).1.status = "BLOCKED" ∧
    (safeWriteFile "/tmp/app.ts" wNewContent none defaultConfig ⟨75, "high", 9⟩
        (some wOldContent) "T").1.status = "BLOCKED" := by
  have h := c5_override_gate "rm -rf /" defaultConfig ⟨75, "high", 9⟩ "P0 incident"
    (.success "") "/tmp/app.ts" wNewContent (some wOldContent) "T"
  have hSB : cmdShouldBlock "rm -rf /" defaultConfig ⟨75, "high", 9⟩ = true := by decide
  have hWB : writeShouldBlock defaultConfig ⟨75, "high", 9⟩
      (calculateDestructiveImpact ((some wOldContent).getD "") wNewContent) = true := by
    decide
  have hr : "P0 incident" ≠ "" := by decide
  have hcmd := h.1 hSB hr
  have hwr := h.2.2.2.1 (Or.inl hWB) hr
  exact ⟨hcmd.2.1 rfl, hcmd.1, hwr.2.1 rfl, (h.2.1 hSB).1,
    ((h.2.2.2.2 (Or.inl hWB)).1)⟩

/-! ## Claim C4 — simulate mode never performs the side effect -/

/-- The configuration with only `execution_mode` replaced. -/
def Config.withMode (config : Config) (m : String) : Config :=
  { config with execution_mode := m }

theorem withMode_execution_mode (config : Config) (m : String) :
    (config.withMode m).execution_mode = m :=
  rfl

theorem cmdShouldBlock_withMode (command : String) (config : Config) (m : String)
    (state : Fatigue) :
    cmdShouldBlock command (config.withMode m) state = cmdShouldBlock command config state :=
  rfl

theorem writeShouldWarn_withMode (config : Config) (m : String) (state : Fatigue)
    (impact : Impact) :
    writeShouldWarn (config.withMode m) state impact = writeShouldWarn config state impact :=
  rfl

theorem writeShouldBlock_withMode (config : Config) (m : String) (state : Fatigue)
    (impact : Impact) :
    writeShouldBlock (config.withMode m) state impact = writeShouldBlock config state impact :=
  rfl

theorem writeShouldHardBlock_withMode (config : Config) (m : String) (state : Fatigue)
    (impact : Impact) :
    writeShouldHardBlock (config.withMode m) state impact =
      writeShouldHardBlock config state impact :=
  rfl

/-- C4: in dry-run mode neither entry point ever performs the underlying
side effect — no command execution, no target-file write, no parent
directory creation — under any outcome tier, override included; moreover
the audit/review effects and the blocked/not-blocked decision are the
same as in any other execution mode (only the action effects and the
outcome labels differ). -/
theorem c4_dry_run_frame (command : String) (o : Option String) (config : Config)
    (state : Fatigue) (runner : ExecResult) (filepath newContent : String)
    (old : Option String) (ts : String)
    (hm : config.execution_mode = "dry_run") :
    ((safeExecuteCommand command o config state runner).2.all
      (fun e => !e.isActionEffect) = true) ∧
    ((safeWriteFile filepath newContent o config state old ts).2.all
      (fun e => !e.isActionEffect) = true) ∧
    (∀ m : String,
      ((safeExecuteCommand command o (config.withMode m) state runner).2.filter
        (fun e => !e.isActionEffect)) =
      (safeExecuteCommand command o config state runner).2) ∧
    (∀ m : String,
      ((safeWriteFile filepath newContent o (config.withMode m) state old ts).2.filter
        (fun e => !e.isActionEffect)) =
      (safeWriteFile filepath newContent o (config) state old ts).2) ∧
    (∀ m : String,
      ((safeWriteFile filepath newContent o (config.withMode m) state old ts).1.status =
          "BLOCKED" ↔
       (safeWriteFile filepath newContent o config state old ts).1.status = "BLOCKED")) := by
  refine ⟨?_, ?_, ?_, ?_, ?_⟩
  · by_cases hSB : cmdShouldBlock command config state = true <;>
      by_cases hO : overridePresent o = true <;>
        simp [safeExecuteCommand, hSB, hO, hm, Effect.isActionEffect]
  · by_cases hB : writeShouldBlock config state
        (calculateDestructiveImpact (old.getD "") newContent) = true <;>
      by_cases hH : writeShouldHardBlock config state
          (calculateDestructiveImpact (old.getD "") newContent) = true <;>
        by_cases hW : writeShouldWarn config state
            (calculateDestructiveImpact (old.getD "") newContent) = true <;>
          by_cases hO : overridePresent o = true <;>
            simp [safeWriteFile, hB, hH, hW, hO, hm, saveToPendingReview,
              Effect.isActionEffect]
  · intro m
    by_cases hm2 : m = "dry_run" <;>
      by_cases hSB : cmdShouldBlock command config state = true <;>
        by_cases hO : overridePresent o = true <;>
          cases runner <;>
            simp [safeExecuteCommand, cmdShouldBlock_withMode, withMode_execution_mode,
              hSB, hO, hm, hm2, Effect.isActionEffect]
  · intro m
    by_cases hm2 : m = "dry_run" <;>
      by_cases hB : writeShouldBlock config state
          (calculateDestructiveImpact (old.getD "") newContent) = true <;>
        by_cases hH : writeShouldHardBlock config state
            (calculateDestructiveImpact (old.getD "") newContent) = true <;>
          by_cases hW : writeShouldWarn config state
              (calculateDestructiveImpact (old.getD "") newContent) = true <;>
            by_cases hO : overridePresent o = true <;>
              simp [safeWriteFile, writeShouldWarn_withMode, withMode_execution_mode,
                writeShouldBlock_withMode, writeShouldHardBlock_withMode,
                hB, hH, hW, hO, hm, hm2, saveToPendingReview, Effect.isActionEffect]
  · intro m
    by_cases hm2 : m = "dry_run" <;>
      by_cases hB : writeShouldBlock config state
          (calculateDestructiveImpact (old.getD "") newContent) = true <;>
        by_cases hH : writeShouldHardBlock config state
            (calculateDestructiveImpact (old.getD "") newContent) = true <;>
          by_cases hW : writeShouldWarn config state
              (calculateDestructiveImpact (old.getD "") newContent) = true <;>
            by_cases hO : overridePresent o = true <;>
              simp [safeWriteFile, writeShouldWarn_withMode, withMode_execution_mode,
                writeShouldBlock_withMode, writeShouldHardBlock_withMode,
                hB, hH, hW, hO, hm, hm2, saveToPendingReview]

set_option maxRecDepth 40000 in
/-- Witness for C4: a dangerous command with an override reason and a
35-line rewrite under the default (dry-run) configuration produce no
execution, no target write and no directory creation. -/
theorem c4_dry_run_frame_witness :
    ((safeExecuteCommand "rm -rf /" (some "P0 incident") defaultConfig ⟨75, "high", 9⟩
        (.success "")).2.all (fun e => !e.isActionEffect) = true) ∧
    ((safeWriteFile "/tmp/app.ts" wNewContent (some "P0 incident") defaultConfig
        ⟨75, "high", 9⟩ (some wOldContent) "T").2.all
      (fun e => !e.isActionEffect) = true) := by
  have h := c4_dry_run_frame "rm -rf /" (some "P0 incident") defaultConfig ⟨75, "high", 9⟩
    (.success "") "/tmp/app.ts" wNewContent (some wOldContent) "T" rfl
  exact ⟨h.1, h.2.1⟩

/-! ## Claim C8 — dangerous-but-not-blocked commands -/

set_option maxRecDepth 40000 in
/-- C8 (counterexample): the claim says `safe_execute_command` still
returns a cautionary warning for a dangerous command below the fatigue
threshold, but the code takes the ordinary non-blocked path: at fatigue
0 the SIMULATED outcome message is the plain "Safety check passed" text
with no warning of any kind (no "danger", no warning sign, no caution),
and in live mode the message is just "Command executed successfully.". -/
theorem c8_no_warning_counterexample :
    isDangerousCommand "rm -rf /tmp/cache" defaultConfig = true ∧
    (Fatigue.mk 0 "low" 0).level ≤ defaultConfig.fatigue_threshold ∧
    (safeExecuteCommand "rm -rf /tmp/cache" none defaultConfig ⟨0, "low", 0⟩
        (.success "")).1.status = "SIMULATED" ∧
    (safeExecuteCommand "rm -rf /tmp/cache" none defaultConfig ⟨0, "low", 0⟩
        (.success "")).1.message =
      "✅ [DRY RUN] Safety check passed.\n\nCommand: `rm -rf /tmp/cache`\n\nThis command WOULD have been executed.\n(Execution skipped: dry_run mode active)\n\nTo enable real execution, set `execution_mode: live` in ~/.humsana/config.yaml" ∧
    strIncludes (safeExecuteCommand "rm -rf /tmp/cache" none defaultConfig ⟨0, "low", 0⟩
        (.success "")).1.message "danger" = false ∧
    strIncludes (safeExecuteCommand "rm -rf /tmp/cache" none defaultConfig ⟨0, "low", 0⟩
        (.success "")).1.message "⚠" = false ∧
    strIncludes (safeExecuteCommand "rm -rf /tmp/cache" none defaultConfig ⟨0, "low", 0⟩
        (.success "")).1.message "arning" = false ∧
    strIncludes (safeExecuteCommand "rm -rf /tmp/cache" none defaultConfig ⟨0, "low", 0⟩
        (.success "")).1.message "aution" = false ∧
    (safeExecuteCommand "rm -rf /tmp/cache" none (defaultConfig.withMode "live")
        ⟨0, "low", 0⟩ (.success "ok")).1.status = "EXECUTED" ∧
    (safeExecuteCommand "rm -rf /tmp/cache" none (defaultConfig.withMode "live")
        ⟨0, "low", 0⟩ (.success "ok")).1.message = "✅ Command executed successfully." := by
  refine ⟨by decide, by decide, by decide, by decide, by decide, by decide, by decide,
    by decide, by decide, by decide⟩

/-- C8 (amended): for a dangerous command at fatigue at or below the
threshold, the cautionary warning comes only from
`check_dangerous_command` (dangerous, not blocked, "potentially
dangerous" message); `safe_execute_command` proceeds with the ordinary
outcome — SIMULATED with the plain "Safety check passed" message in
dry-run, EXECUTED with the plain success message in live mode — with no
cautionary warning attached. -/
theorem c8_dangerous_not_blocked_amended (command : String) (config : Config)
    (state : Fatigue) (runner : ExecResult)
    (hD : isDangerousCommand command config = true)
    (hL : state.level ≤ config.fatigue_threshold) :
    (checkDangerousCommand command config state).1.is_dangerous = true ∧
    (checkDangerousCommand command config state).1.is_blocked = false ∧
    strIncludes (checkDangerousCommand command config state).1.message
      "potentially dangerous" = true ∧
    (config.execution_mode = "dry_run" →
      (safeExecuteCommand command none config state runner).1.status = "SIMULATED" ∧
      strIncludes (safeExecuteCommand command none config state runner).1.message
        "Safety check passed" = true) ∧
    (config.execution_mode ≠ "dry_run" → ∀ out : String, runner = .success out →
      (safeExecuteCommand command none config state runner).1.status = "EXECUTED" ∧
      (safeExecuteCommand command none config state runner).1.message =
        "✅ Command executed successfully.") := by
  have hnl : ¬(config.fatigue_threshold < state.level) := not_lt.mpr hL
  have hSB : cmdShouldBlock command config state = false := by
    simp [cmdShouldBlock, hnl]
  refine ⟨?_, ?_, ?_, ?_, ?_⟩
  · simp [checkDangerousCommand, hSB, hD]
  · simp [checkDangerousCommand, hSB, hD]
  · simp only [checkDangerousCommand, hSB, Bool.false_eq_true, if_false, hD, if_true]
    exact strIncludes_mid _ _ _
  · intro hm
    constructor
    · simp [safeExecuteCommand, hSB, hm]
    · simp only [safeExecuteCommand, hSB, Bool.false_and, Bool.false_eq_true, if_false,
        hm, if_true]
      exact strIncludes_mid _ _ _
  · intro hm out hrun
    subst hrun
    constructor <;> simp [safeExecuteCommand, hSB, hm]

/-- Witness for C8 (amended) at `rm -rf /tmp/cache`, fatigue 0, default
dry-run configuration. -/
theorem c8_dangerous_not_blocked_amended_witness :
    (checkDangerousCommand "rm -rf /tmp/cache" defaultConfig ⟨0, "low", 0⟩).1.is_dangerous =
      true ∧
    (safeExecuteCommand "rm -rf /tmp/cache" none defaultConfig ⟨0, "low", 0⟩
        (.success "")).1.status = "SIMULATED" := by
  have h := c8_dangerous_not_blocked_amended "rm -rf /tmp/cache" defaultConfig
    ⟨0, "low", 0⟩ (.success "") (by decide) (by decide)
  exact ⟨h.1, (h.2.2.2.1 rfl).1⟩
